import Mathlib

/-!
Verification of the rs-cee front-end parser (src/src/parser/Parser.rs).

The file shallowly embeds the parser: the mutable `Parser` struct becomes a
Lean structure threaded explicitly, fallible operations return an explicit
result type, and the `todo!()` / `unwrap()`-on-`None` aborts of the Rust code
are modelled by a dedicated `crash` outcome.  Components of the repository
that are only declared but whose sources are not part of the reviewed tree
(the basic scanner, the token and AST type definitions, the keyword table and
the `tag_matches` macro) are modelled from the specification, as marked on
each definition.
-/

namespace CEE

/-- Modelled from the spec: `Position` is a location in source text; the
character-level bookkeeping lives in the external scanner, so a plain offset
suffices for the embedding. -/
abbrev Position := Nat

/-- Modelled from the spec: `PosRange` is a begin/end pair of Positions
(src/src/scanner/PosRange.rs is not part of the reviewed tree). -/
structure PosRange where
  Begin : Position
  End : Position
deriving DecidableEq, Repr

/-- Modelled from the spec: the basic-token classification produced by the
external Basic Scanner (src/src/scanner/BasicToken.rs is not in the reviewed
tree).  The variant list is exactly the set matched exhaustively by
`Parser::Scan` (lines 118-134 of Parser.rs). -/
inductive BasicTokenKind where
  | Ident : BasicTokenKind
  | Operator : BasicTokenKind
  | Delimiter : BasicTokenKind
  | Int : Nat → BasicTokenKind
  | Float : BasicTokenKind
  | String : BasicTokenKind
  | Char : BasicTokenKind
  | Comment : BasicTokenKind
deriving DecidableEq, Repr

/-- Modelled from the spec: a basic token carries a position and its literal
text. -/
structure BasicToken where
  Pos : Position
  Kind : BasicTokenKind
  Literal : List Char
deriving DecidableEq, Repr

/-- Modelled from the spec: the language-level token kinds.  The tag set is
the one used by Parser.rs: literal kinds, the generic operator kind,
punctuation and bracket kinds, keyword kinds, the line-break marker and the
statement terminator (src/src/parser/Token.rs is not in the reviewed tree). -/
inductive TokenKind where
  | None : TokenKind
  | Ident : TokenKind
  | Int : Nat → TokenKind
  | Float : TokenKind
  | String : TokenKind
  | Char : TokenKind
  | Operator : TokenKind
  | NEWLINE : TokenKind
  | SEMICOLON : TokenKind
  | COMMA : TokenKind
  | LPAREN : TokenKind
  | RPAREN : TokenKind
  | LBRACK : TokenKind
  | RBRACK : TokenKind
  | LBRACE : TokenKind
  | RBRACE : TokenKind
  | STRUCT : TokenKind
  | TRAIT : TokenKind
  | FUNC : TokenKind
  | IMPORT : TokenKind
  | RETURN : TokenKind
  | PASS : TokenKind
deriving DecidableEq, Repr

/-- Discriminant extraction for `TokenKind`, the payload (the numeric format
of `Int`) is not part of the discriminant. -/
def TokenKind.tag : TokenKind → Nat
  | .None => 0
  | .Ident => 1
  | .Int _ => 2
  | .Float => 3
  | .String => 4
  | .Char => 5
  | .Operator => 6
  | .NEWLINE => 7
  | .SEMICOLON => 8
  | .COMMA => 9
  | .LPAREN => 10
  | .RPAREN => 11
  | .LBRACK => 12
  | .RBRACK => 13
  | .LBRACE => 14
  | .RBRACE => 15
  | .STRUCT => 16
  | .TRAIT => 17
  | .FUNC => 18
  | .IMPORT => 19
  | .RETURN => 20
  | .PASS => 21

/-- Modelled from the spec: the `tag_matches!` macro (src/src/macros.rs is
not in the reviewed tree) compares discriminants only, ignoring any payload
carried by a kind. -/
def tagMatches (a b : TokenKind) : Bool := a.tag == b.tag

/-- Modelled from the spec: a language-level token. -/
structure Token where
  Pos : Position
  Kind : TokenKind
  Literal : List Char
deriving DecidableEq, Repr

/-- Modelled from the spec: `Token::default()`, the default/empty Token. -/
def Token.default : Token := ⟨0, .None, []⟩

/-- Modelled from the spec: the keyword table maps reserved spellings and the
fixed punctuation/bracket spellings to their dedicated kinds, and the line
break to the line-break marker kind (src/src/parser/Token.rs is not in the
reviewed tree).  \x7b and \x7d denote the two curly brackets. -/
def KeywordLookup : List (List Char × TokenKind) :=
  [("struct".toList, .STRUCT),
   ("trait".toList, .TRAIT),
   ("func".toList, .FUNC),
   ("import".toList, .IMPORT),
   ("return".toList, .RETURN),
   ("->".toList, .PASS),
   ("(".toList, .LPAREN),
   (")".toList, .RPAREN),
   ("[".toList, .LBRACK),
   ("]".toList, .RBRACK),
   ("\x7b".toList, .LBRACE),
   ("\x7d".toList, .RBRACE),
   (",".toList, .COMMA),
   (";".toList, .SEMICOLON),
   ("\n".toList, .NEWLINE)]

/-- The `lookup!(Operator)` macro of `Parser::Scan`: a spelling present in
the keyword table yields the table's kind, a miss yields the generic
operator kind regardless of the basic shape. -/
def resolveKw (lit : List Char) : TokenKind :=
  match KeywordLookup.find? (fun kv => kv.1 == lit) with
  | some kv => kv.2
  | none => .Operator

/-- Modelled from the spec: the external Basic Scanner, reduced to the
stream of basic tokens it will deliver plus its position cursor; pulling
from an exhausted or malformed stream is the scanner failure that
`Parser::Scan` propagates. -/
structure BasicScanner where
  buf : List BasicToken
  pos : Position
deriving DecidableEq, Repr

/-- Modelled from the spec: the `UnexpectedNode` diagnostic payload carries
an expected and an observed node, each either a bare kind or a concrete
token (src/src/parser/Diagnosis.rs is not in the reviewed tree). -/
inductive Node where
  | TokenKind : TokenKind → Node
  | Token : Token → Node
deriving DecidableEq, Repr

/-- Modelled from the spec: the single current syntax-error case. -/
structure UnexpectedNodeError where
  Want : Node
  Have : Node
deriving DecidableEq, Repr

/-- Modelled from the spec: the syntax-error sum type. -/
inductive SyntaxError where
  | UnexpectedNode : UnexpectedNodeError → SyntaxError
deriving DecidableEq, Repr

/-- The parser state of Parser.rs (the owned keyword table is the constant
`KeywordLookup` and is not duplicated in the state). -/
structure Parser where
  Scanner : BasicScanner
  ReachedEOF : Bool
  Token : Token
  CompleteSemicolon : Bool
  QuoteStack : List TokenKind
  SyntaxErrors : List SyntaxError
deriving DecidableEq, Repr

/-- `NewParser`: fresh state over a basic-token stream. -/
def NewParser (stream : List BasicToken) : Parser :=
  ⟨⟨stream, 0⟩, false, Token.default, false, [], []⟩

/-- Outcomes of a parser operation: success with the new state, the
propagated scanner failure, an abort (`todo!()` or `unwrap()` of `None`),
or exhaustion of the fuel that makes the embedding total. -/
inductive PRes (α : Type) where
  | ok : α → Parser → PRes α
  | scanErr : PRes α
  | crash : PRes α
  | fuelOut : PRes α
deriving Repr

/-- Sequencing of parser operations (the `?` operator of the Rust source). -/
def pbind {α β : Type} (x : PRes α) (f : α → Parser → PRes β) : PRes β :=
  match x with
  | .ok a p => f a p
  | .scanErr => .scanErr
  | .crash => .crash
  | .fuelOut => .fuelOut

/-- `Parser::GetPos`, delegated to the scanner. -/
def GetPos (p : Parser) : Position := p.Scanner.pos

/-- The four kinds that arm the terminator-pending flag in `Parser::Scan`
(lines 122-126). -/
def isStmtEnd : TokenKind → Bool
  | .Ident => true
  | .RPAREN => true
  | .RBRACE => true
  | .RETURN => true
  | _ => false

/-- The identifier/operator/delimiter arm of `Parser::Scan` (lines 119-129
together with lines 137-148): resolve the spelling through the keyword
table with the generic operator fallback, arm the terminator-pending flag
on statement-ending kinds, push the expected closer for an opening bracket,
and store the new lookahead. -/
def scanResolveStep (bt : BasicToken) (sc : BasicScanner) (p1 : Parser) : Parser :=
  let k := resolveKw bt.Literal
  let p2 := if isStmtEnd k then { p1 with CompleteSemicolon := true } else p1
  let p3 :=
    match k with
    | .LPAREN => { p2 with QuoteStack := .RPAREN :: p2.QuoteStack }
    | .LBRACE => { p2 with QuoteStack := .RBRACE :: p2.QuoteStack }
    | .LBRACK => { p2 with QuoteStack := .RBRACK :: p2.QuoteStack }
    | _ => p2
  { p3 with Scanner := sc, Token := ⟨bt.Pos, k, bt.Literal⟩ }

/-- Body of `Parser::Scan`, recursing structurally on the remaining basic
token stream (the recursion skips comments).  Mirrors Parser.rs lines
84-151: pull one basic token; synthesize a terminator if the previous
lookahead was a line break and the flag is set; otherwise clear the flag,
resolve the kind, arm the flag on statement-ending kinds, push expected
closers for opening brackets, and store the new lookahead. -/
def scanGo : List BasicToken → Parser → PRes Unit
  | [], _ => .scanErr
  | bt :: rest, p =>
    let sc : BasicScanner := ⟨rest, bt.Pos + bt.Literal.length⟩
    if p.Token.Kind = .NEWLINE ∧ p.CompleteSemicolon = true then
      .ok () { p with Scanner := sc, CompleteSemicolon := false, Token := ⟨bt.Pos, .SEMICOLON, [';']⟩ }
    else
      let p1 := { p with CompleteSemicolon := false }
      match bt.Kind with
      | .Ident | .Operator | .Delimiter =>
        .ok () (scanResolveStep bt sc p1)
      | .Int f => .ok () { p1 with Scanner := sc, Token := ⟨bt.Pos, .Int f, bt.Literal⟩ }
      | .Float => .ok () { p1 with Scanner := sc, Token := ⟨bt.Pos, .Float, bt.Literal⟩ }
      | .String => .ok () { p1 with Scanner := sc, Token := ⟨bt.Pos, .String, bt.Literal⟩ }
      | .Char => .ok () { p1 with Scanner := sc, Token := ⟨bt.Pos, .Char, bt.Literal⟩ }
      | .Comment => scanGo rest { p1 with Scanner := sc }

/-- `Parser::Scan`. -/
def Scan (p : Parser) : PRes Unit := scanGo p.Scanner.buf p

/-- `Parser::Report`: append one diagnostic. -/
def Report (e : SyntaxError) (p : Parser) : Parser :=
  { p with SyntaxErrors := p.SyntaxErrors ++ [e] }

/-- The `while !tag_matches(&self.Token.Kind, &self.QuoteStack.pop().unwrap())`
loop of `Parser::ReportAndRecover` (lines 161-163).  Each iteration pops one
expected closer (popping an empty stack is the `unwrap` abort), compares it
by tag with the current lookahead, and on mismatch advances the adapter.
Fuel makes the loop total; the stack can grow again while skipping opening
brackets. -/
def recoverLoop : Nat → Parser → PRes Unit
  | 0, _ => .fuelOut
  | n + 1, p =>
    match p.QuoteStack with
    | [] => .crash
    | c :: rest =>
      if tagMatches p.Token.Kind c then .ok () { p with QuoteStack := rest }
      else
        match Scan { p with QuoteStack := rest } with
        | .ok _ q => recoverLoop n q
        | .scanErr => .scanErr
        | .crash => .crash
        | .fuelOut => .fuelOut

/-- `Parser::ReportAndRecover` (lines 157-167). -/
def ReportAndRecover (n : Nat) (e : SyntaxError) (p : Parser) : PRes Unit :=
  let p1 := { p with SyntaxErrors := p.SyntaxErrors ++ [e] }
  if p1.QuoteStack.length != 0 then recoverLoop n p1 else .ok () p1

/-- `Parser::MatchTerm` (lines 169-178): capture the lookahead, advance,
then report a diagnostic and substitute the default token when the captured
kind matches the expected kind, and return the captured token otherwise. -/
def MatchTerm (term : TokenKind) (p : Parser) : PRes Token :=
  let token := p.Token
  pbind (Scan p) fun _ p =>
    if tagMatches token.Kind term then
      .ok Token.default
        (Report (.UnexpectedNode ⟨.TokenKind term, .TokenKind token.Kind⟩) p)
    else
      .ok token p

/-- Modelled from the spec: the `Ident` AST node, a name with its
originating token (src/src/parser/AST.rs is not in the reviewed tree; the
constructions in Parser.rs fix the fields). -/
structure Ident where
  Pos : Position
  Token : Token
deriving DecidableEq, Repr

/-- Modelled from the spec: `Ident::default()`. -/
def Ident.default : Ident := ⟨0, Token.default⟩

mutual

/-- Modelled from the spec: the `Type` AST variant (named `Ty` here since
`Type` is reserved in Lean), currently populated with `None`, `StructType`
and `TraitType`. -/
inductive Ty where
  | None : Ty
  | StructType : StructType → Ty
  | TraitType : TraitType → Ty

/-- Modelled from the spec: `StructType` carries its range, name and field
list. -/
inductive StructType where
  | mk : PosRange → Ident → FieldList → StructType

/-- Modelled from the spec: `TraitType` carries its name and range. -/
inductive TraitType where
  | mk : Ident → PosRange → TraitType

/-- Modelled from the spec: `Field` is a name, a type (field `Typ` here)
and a range. -/
inductive Field where
  | mk : Ident → Ty → PosRange → Field

/-- Modelled from the spec: `FieldList` is an ordered field sequence with
its range. -/
inductive FieldList where
  | mk : List Field → PosRange → FieldList

end

/-- Modelled from the spec: `FuncType` is a parameter field list, a result
type defaulting to `None`, and a range. -/
structure FuncType where
  Pos : PosRange
  Params : FieldList
  Result : Ty

/-- Modelled from the spec: `FuncDecl` is a name, a function type (field
`Typ` here) and a range. -/
structure FuncDecl where
  Name : Ident
  Typ : FuncType
  Pos : PosRange

/-- Modelled from the spec: `ImportDecl` is an optional alias, the
canonical-path token and a range. -/
structure ImportDecl where
  Alias : Option Ident
  Canonical : Token
  Pos : PosRange
deriving DecidableEq, Repr

/-- Modelled from the spec: `ImportDecl::default()`. -/
def ImportDecl.default : ImportDecl := ⟨none, Token.default, ⟨0, 0⟩⟩

/-- `Parser::ExpectIdent` (lines 182-195): succeed only on an
identifier-kind lookahead; otherwise report and recover, yielding the
default `Ident`. -/
def ExpectIdent (n : Nat) (p : Parser) : PRes Ident :=
  let token := p.Token
  match token.Kind with
  | .Ident =>
    pbind (Scan p) fun _ p => .ok ⟨token.Pos, token⟩ p
  | _ =>
    pbind (ReportAndRecover n (.UnexpectedNode ⟨.TokenKind .Ident, .Token p.Token⟩) p) fun _ p =>
      .ok Ident.default p

/-- `Parser::ExpectField` (lines 197-205), with the mutual call into the
type rule passed as `et`. -/
def ExpectField (et : Parser → PRes Ty) (n : Nat) (p : Parser) : PRes Field :=
  let b := GetPos p
  pbind (ExpectIdent n p) fun name p =>
  pbind (et p) fun ty p =>
  .ok (Field.mk name ty ⟨b, GetPos p⟩) p

/-- The `parse_list!` macro (lines 60-79): parse one element; on a
delimiter, consume it and stop if the new lookahead is the terminator
(optional trailing delimiter); on the terminator, stop; otherwise loop.
Fuel makes the loop total. -/
def parse_list {α : Type} (f : Parser → PRes α) : Nat → TokenKind → TokenKind → Parser → PRes (List α)
  | 0, _, _, _ => .fuelOut
  | n + 1, delimiter, term, p =>
    pbind (f p) fun a p =>
      if tagMatches p.Token.Kind delimiter then
        pbind (Scan p) fun _ p =>
          if tagMatches p.Token.Kind term then .ok [a] p
          else
            match parse_list f n delimiter term p with
            | .ok l q => .ok (a :: l) q
            | .scanErr => .scanErr
            | .crash => .crash
            | .fuelOut => .fuelOut
      else if tagMatches p.Token.Kind term then .ok [a] p
      else
        match parse_list f n delimiter term p with
        | .ok l q => .ok (a :: l) q
        | .scanErr => .scanErr
        | .crash => .crash
        | .fuelOut => .fuelOut

/-- `Parser::ExpectFieldList` (lines 207-214). -/
def ExpectFieldList (et : Parser → PRes Ty) (n : Nat) (delimiter term : TokenKind) (p : Parser) : PRes FieldList :=
  let b := GetPos p
  pbind (parse_list (ExpectField et n) n delimiter term p) fun l p =>
  .ok (FieldList.mk l ⟨b, GetPos p⟩) p

/-- `Parser::ExpectTraitType` (lines 265-276). -/
def ExpectTraitType (n : Nat) (p : Parser) : PRes TraitType :=
  let b := GetPos p
  pbind (MatchTerm .TRAIT p) fun _ p =>
  pbind (ExpectIdent n p) fun name p =>
  .ok (TraitType.mk name ⟨b, GetPos p⟩) p

/-- `Parser::ExpectStructType` (lines 252-263). -/
def ExpectStructType (et : Parser → PRes Ty) (n : Nat) (p : Parser) : PRes StructType :=
  let b := GetPos p
  pbind (MatchTerm .STRUCT p) fun _ p =>
  pbind (MatchTerm .LBRACE p) fun _ p =>
  pbind (ExpectIdent n p) fun name p =>
  pbind (ExpectFieldList et n .SEMICOLON .RBRACE p) fun fl p =>
  .ok (StructType.mk ⟨b, GetPos p⟩ name fl) p

/-- `Parser::ExpectType` (lines 216-225): dispatch on the lookahead kind;
the struct and trait keywords enter the corresponding rules, and any other
kind evaluates `todo!()` inside the diagnostic construction, an abort.
The fuel recursion is tied with `Nat.rec` so the definition reduces
definitionally. -/
def ExpectType (n : Nat) : Parser → PRes Ty :=
  @Nat.rec (fun _ => Parser → PRes Ty)
    (fun _ => .fuelOut)
    (fun m et p =>
      match p.Token.Kind with
      | .STRUCT => pbind (ExpectStructType et m p) fun s p => .ok (Ty.StructType s) p
      | .TRAIT => pbind (ExpectTraitType m p) fun t p => .ok (Ty.TraitType t) p
      | _ => .crash)
    n

/-- Unfolding equation for `ExpectType` at successor fuel. -/
theorem ExpectType_succ (n : Nat) (p : Parser) :
    ExpectType (n + 1) p =
      match p.Token.Kind with
      | .STRUCT => pbind (ExpectStructType (ExpectType n) n p) fun s p => .ok (Ty.StructType s) p
      | .TRAIT => pbind (ExpectTraitType n p) fun t p => .ok (Ty.TraitType t) p
      | _ => .crash := rfl

/-- `Parser::ExpectFuncType` (lines 227-250).  Note the result-marker
branch does not advance past the marker before calling the type rule. -/
def ExpectFuncType (n : Nat) (p : Parser) : PRes FuncType :=
  let b := GetPos p
  pbind (MatchTerm .LPAREN p) fun _ p =>
  pbind (ExpectFieldList (ExpectType n) n .COMMA .RPAREN p) fun params p =>
  match p.Token.Kind with
  | .PASS =>
    pbind (ExpectType n p) fun r p => .ok ⟨⟨b, GetPos p⟩, params, r⟩ p
  | _ => .ok ⟨⟨b, GetPos p⟩, params, Ty.None⟩ p

/-- `Parser::ExpectImportDecl` (lines 278-305). -/
def ExpectImportDecl (n : Nat) (p : Parser) : PRes ImportDecl :=
  let b := GetPos p
  pbind (MatchTerm .IMPORT p) fun _ p =>
  match p.Token.Kind with
  | .Ident =>
    pbind (ExpectIdent n p) fun aliasId p =>
    pbind (MatchTerm .String p) fun canonical p =>
    .ok ⟨some aliasId, canonical, ⟨b, GetPos p⟩⟩ p
  | .String =>
    pbind (MatchTerm .String p) fun canonical p =>
    .ok ⟨none, canonical, ⟨b, GetPos p⟩⟩ p
  | _ =>
    pbind (ReportAndRecover n (.UnexpectedNode ⟨.TokenKind .String, .Token p.Token⟩) p) fun _ p =>
    .ok ImportDecl.default p

/-- `Parser::ExpectFuncDecl` (lines 307-348). -/
def ExpectFuncDecl (n : Nat) (p : Parser) : PRes FuncDecl :=
  let b := GetPos p
  pbind (MatchTerm .FUNC p) fun _ p =>
  pbind (ExpectIdent n p) fun name p =>
  pbind (MatchTerm .LPAREN p) fun _ p =>
  pbind (match p.Token.Kind with
         | .RPAREN => .ok (FieldList.mk [] ⟨GetPos p, GetPos p⟩) p
         | _ => ExpectFieldList (ExpectType n) n .COMMA .RPAREN p) fun params p =>
  pbind (match p.Token.Kind with
         | .PASS =>
           pbind (Scan p) fun _ p =>
           pbind (ExpectType n p) fun r p =>
           .ok (FuncType.mk ⟨b, GetPos p⟩ params r) p
         | _ => .ok (FuncType.mk ⟨b, GetPos p⟩ params Ty.None) p) fun typ p =>
  .ok (FuncDecl.mk name typ ⟨b, GetPos p⟩) p

/-- The resolve step stores the resolved kind as the lookahead kind. -/
theorem scanResolveStep_kind (bt : BasicToken) (sc : BasicScanner) (p1 : Parser) :
    (scanResolveStep bt sc p1).Token.Kind = resolveKw bt.Literal := by
  cases hk : resolveKw bt.Literal <;> simp [scanResolveStep, hk]

/-- The resolve step arms the terminator-pending flag exactly on the four
statement-ending kinds. -/
theorem scanResolveStep_flag (bt : BasicToken) (sc : BasicScanner) (p1 : Parser)
    (h : p1.CompleteSemicolon = false) :
    (scanResolveStep bt sc p1).CompleteSemicolon = isStmtEnd (resolveKw bt.Literal) := by
  cases hk : resolveKw bt.Literal <;> simp [scanResolveStep, hk, isStmtEnd, h]

/-- The resolve step never touches the diagnostics log. -/
theorem scanResolveStep_errors (bt : BasicToken) (sc : BasicScanner) (p1 : Parser) :
    (scanResolveStep bt sc p1).SyntaxErrors = p1.SyntaxErrors := by
  cases hk : resolveKw bt.Literal <;> simp [scanResolveStep, hk, isStmtEnd]

/-- `Scan` never touches the diagnostics log. -/
theorem scanGo_preserves_errors (buf : List BasicToken) :
    ∀ p q, scanGo buf p = .ok () q → q.SyntaxErrors = p.SyntaxErrors := by
  induction buf with
  | nil => intro p q h; simp [scanGo] at h
  | cons bt rest ih =>
    intro p q h
    simp only [scanGo] at h
    split at h
    · cases h; rfl
    · cases hbk : bt.Kind <;> simp only [hbk] at h
      case Ident | Operator | Delimiter =>
        cases h; rw [scanResolveStep_errors]
      case Int | Float | String | Char => cases h; rfl
      case Comment => exact (ih _ _ h).trans rfl

/-- After every successful `Scan`, the terminator-pending flag is armed
exactly when the new lookahead kind is one of the statement-ending kinds. -/
theorem scanGo_flag_inv (buf : List BasicToken) :
    ∀ p q, scanGo buf p = .ok () q → q.CompleteSemicolon = isStmtEnd q.Token.Kind := by
  induction buf with
  | nil => intro p q h; simp [scanGo] at h
  | cons bt rest ih =>
    intro p q h
    simp only [scanGo] at h
    split at h
    · cases h; rfl
    · cases hbk : bt.Kind <;> simp only [hbk] at h
      case Ident | Operator | Delimiter =>
        cases h
        rw [scanResolveStep_kind, scanResolveStep_flag]
        all_goals rfl
      case Int | Float | String | Char => cases h; rfl
      case Comment => exact ih _ _ h

/-- C1: `MatchTerm(expected)` captures the current lookahead and advances
the adapter by one; when the captured kind matches the expected kind (by
tag) a diagnostic is appended to the log and the default/empty token is
returned, and otherwise the captured token is returned unchanged with no
diagnostic appended. -/
theorem matchTerm_spec (t : TokenKind) (p q : Parser) (h : Scan p = .ok () q) :
    MatchTerm t p =
      (if tagMatches p.Token.Kind t
       then .ok Token.default (Report (.UnexpectedNode ⟨.TokenKind t, .TokenKind p.Token.Kind⟩) q)
       else .ok p.Token q)
    ∧ q.SyntaxErrors = p.SyntaxErrors := by
  constructor
  · simp only [MatchTerm, h, pbind, Report]
  · exact scanGo_preserves_errors p.Scanner.buf p q h

/-- Concrete instance for `matchTerm_spec`: the lookahead is an operator
token, the expected kind is `IMPORT`, the kinds do not match, so the
captured token comes back unchanged and the log stays empty. -/
def c1p : Parser := ⟨⟨[⟨1, .Delimiter, [';']⟩], 0⟩, false, ⟨0, .Operator, ['x']⟩, false, [], []⟩

/-- Post-scan state for the `matchTerm_spec` witness. -/
def c1q : Parser := ⟨⟨[], 2⟩, false, ⟨1, .SEMICOLON, [';']⟩, false, [], []⟩

/-- Witness for C1 at a concrete state. -/
theorem matchTerm_spec_witness :
    MatchTerm .IMPORT c1p = .ok c1p.Token c1q ∧ c1q.SyntaxErrors = c1p.SyntaxErrors := by
  have h := matchTerm_spec .IMPORT c1p c1q rfl
  exact ⟨h.1.trans rfl, h.2⟩

/-- Token stream whose lookahead after priming is an operator-kind token,
neither the struct nor the trait keyword. -/
def c2stream : List BasicToken := [⟨0, .Ident, ['x']⟩, ⟨1, .Delimiter, [';']⟩]

/-- One priming `Scan` followed by `ExpectType` on `c2stream`. -/
def c2run : PRes Ty := pbind (Scan (NewParser c2stream)) fun _ p => ExpectType 10 p

/-- C2 counterexample: a grammar entry point terminates abnormally on an
ordinary token stream with no lexical error: `ExpectType` on the stream for
`x ;` aborts (the `todo!()` on line 221 of Parser.rs) instead of returning
an AST node with diagnostics. -/
theorem expectType_abnormal_example : c2run = .crash := rfl

/-- C2 (amended): `ExpectType` returns an AST node only when the lookahead
is the struct or trait keyword; on every other lookahead kind it terminates
abnormally (the `todo!()` inside the diagnostic construction) before any
diagnostic is appended, so a parse pass does not always return an AST. -/
theorem expectType_unhandled_crash (n : Nat) (p : Parser)
    (h1 : p.Token.Kind ≠ .STRUCT) (h2 : p.Token.Kind ≠ .TRAIT) :
    ExpectType (n + 1) p = .crash := by
  rw [ExpectType_succ]
  cases hk : p.Token.Kind
  all_goals first
    | exact absurd hk h1
    | exact absurd hk h2
    | rfl

/-- Concrete state for the `expectType_unhandled_crash` witness: the
lookahead is a comma. -/
def c2wp : Parser := ⟨⟨[], 0⟩, false, ⟨0, .COMMA, [',']⟩, false, [], []⟩

/-- Witness for the amended C2 theorem at a concrete state. -/
theorem expectType_unhandled_crash_witness : ExpectType 1 c2wp = .crash :=
  expectType_unhandled_crash 0 c2wp (by decide) (by decide)

/-- Basic-token stream for `import "pkg"` followed by a line break. -/
def c3stream1 : List BasicToken :=
  [⟨0, .Ident, "import".toList⟩, ⟨7, .String, "pkg".toList⟩, ⟨12, .Operator, ['\n']⟩]

/-- Basic-token stream for `import io "pkg"` followed by a line break. -/
def c3stream2 : List BasicToken :=
  [⟨0, .Ident, "import".toList⟩, ⟨7, .Ident, "io".toList⟩, ⟨10, .String, "pkg".toList⟩, ⟨15, .Operator, ['\n']⟩]

/-- One priming `Scan` followed by `ExpectImportDecl` on `c3stream1`. -/
def c3run1 : PRes ImportDecl := pbind (Scan (NewParser c3stream1)) fun _ p => ExpectImportDecl 10 p

/-- One priming `Scan` followed by `ExpectImportDecl` on `c3stream2`. -/
def c3run2 : PRes ImportDecl := pbind (Scan (NewParser c3stream2)) fun _ p => ExpectImportDecl 10 p

/-- Alias of a returned `ImportDecl`. -/
def importAlias : PRes ImportDecl → Option (Option Ident)
  | .ok d _ => some d.Alias
  | _ => none

/-- Literal text of the canonical-path token of a returned `ImportDecl`. -/
def importCanonicalLit : PRes ImportDecl → Option (List Char)
  | .ok d _ => some d.Canonical.Literal
  | _ => none

/-- Diagnostics accumulated by a run returning an `ImportDecl`. -/
def importErrCount : PRes ImportDecl → Option Nat
  | .ok _ p => some p.SyntaxErrors.length
  | _ => none

/-- C3: evaluation of `ExpectImportDecl` at the claim's two inputs.  On
`import "pkg"` the alias is `None` but the canonical-path token is the
default/empty token (its literal is empty, not "pkg") and two diagnostics
were logged, because the inverted `MatchTerm` misfires on the matching
IMPORT and String tokens.  On `import io "pkg"` the identifier `io`
resolves to the generic operator kind, so the rule falls into its recovery
branch and returns the default `ImportDecl` (alias `None`, empty canonical
token) with two diagnostics. -/
theorem importDecl_actual_output :
    importAlias c3run1 = some none
    ∧ importCanonicalLit c3run1 = some []
    ∧ importCanonicalLit c3run1 ≠ some ("pkg".toList)
    ∧ importErrCount c3run1 = some 2
    ∧ importAlias c3run2 = some none
    ∧ importCanonicalLit c3run2 = some []
    ∧ importErrCount c3run2 = some 2 :=
  ⟨rfl, rfl, by decide, rfl, rfl, rfl, rfl⟩

/-- Basic-token stream for
`func add ( a trait Num , b trait Num ) -> trait Num` and a line break. -/
def c4stream : List BasicToken :=
  [⟨0, .Ident, "func".toList⟩, ⟨5, .Ident, "add".toList⟩, ⟨9, .Delimiter, ['(']⟩,
   ⟨11, .Ident, ['a']⟩, ⟨13, .Ident, "trait".toList⟩, ⟨19, .Ident, "Num".toList⟩,
   ⟨23, .Delimiter, [',']⟩, ⟨25, .Ident, ['b']⟩, ⟨27, .Ident, "trait".toList⟩,
   ⟨33, .Ident, "Num".toList⟩, ⟨37, .Delimiter, [')']⟩, ⟨39, .Operator, "->".toList⟩,
   ⟨42, .Ident, "trait".toList⟩, ⟨48, .Ident, "Num".toList⟩, ⟨51, .Operator, ['\n']⟩]

/-- One priming `Scan` followed by `ExpectFuncDecl` on `c4stream`. -/
def c4run : PRes FuncDecl := pbind (Scan (NewParser c4stream)) fun _ p => ExpectFuncDecl 20 p

/-- C4: evaluation of `ExpectFuncDecl` at the claim's input aborts instead
of returning the described `FuncDecl`: `add` resolves to the generic
operator kind, so `ExpectIdent` fails inside the parameter list and the
recovery loop pops the bracket tracker past empty (the `unwrap` of `None`
on line 161 of Parser.rs). -/
theorem funcDecl_add_crashes : c4run = .crash := rfl

/-- State for the C5 counterexample: the lookahead is a line break at
position 5, the terminator-pending flag is set, and the next basic token
sits at position 6. -/
def c5p : Parser := ⟨⟨[⟨6, .Ident, ['y']⟩], 0⟩, false, ⟨5, .NEWLINE, ['\n']⟩, true, [], []⟩

/-- State after `Scan` on `c5p`. -/
def c5q : Parser := ⟨⟨[], 7⟩, false, ⟨6, .SEMICOLON, [';']⟩, false, [], []⟩

/-- C5 counterexample: at a state whose previous lookahead is the line
break at position 5 with the flag set, `Scan` synthesizes the terminator at
position 6 — the position of the basic token pulled after the break — not
at the line break's position, refuting the claim's placement. -/
theorem scan_synthesis_position_example :
    Scan c5p = .ok () c5q
    ∧ c5p.Token.Kind = .NEWLINE ∧ c5p.CompleteSemicolon = true
    ∧ c5q.Token.Kind = .SEMICOLON ∧ c5q.Token.Pos ≠ c5p.Token.Pos :=
  ⟨rfl, rfl, rfl, rfl, by decide⟩

/-- C5 (amended): when the previous lookahead kind is the line-break marker
and the terminator-pending flag is set, `Scan` synthesizes a statement
terminator positioned at the basic token pulled after the line break (not
at the break itself) and clears the flag; and after every successful `Scan`
the flag is armed exactly when the resolved lookahead kind is identifier,
closing-paren, closing-brace or the `return` keyword, so a line break
following any other kind can never trigger a synthesis. -/
theorem scan_synthesis_spec :
    (∀ (p : Parser) (bt : BasicToken) (rest : List BasicToken),
       p.Scanner.buf = bt :: rest → p.Token.Kind = .NEWLINE → p.CompleteSemicolon = true →
       ∃ q, Scan p = .ok () q ∧ q.Token = ⟨bt.Pos, .SEMICOLON, [';']⟩ ∧ q.CompleteSemicolon = false)
    ∧ (∀ p q, Scan p = .ok () q → q.CompleteSemicolon = isStmtEnd q.Token.Kind) := by
  constructor
  · intro p bt rest hbuf hk hf
    refine ⟨{ p with Scanner := ⟨rest, bt.Pos + bt.Literal.length⟩, CompleteSemicolon := false, Token := ⟨bt.Pos, .SEMICOLON, [';']⟩ }, ?_, rfl, rfl⟩
    unfold Scan
    rw [hbuf]
    simp only [scanGo]
    rw [if_pos ⟨hk, hf⟩]
  · intro p q h
    exact scanGo_flag_inv p.Scanner.buf p q h

/-- State for the `scan_synthesis_spec` witness: line break at position 3,
next basic token a string literal at position 4. -/
def c5wp : Parser := ⟨⟨[⟨4, .String, ['s']⟩], 0⟩, false, ⟨3, .NEWLINE, ['\n']⟩, true, [], []⟩

/-- Witness for the amended C5 theorem at a concrete state. -/
theorem scan_synthesis_spec_witness :
    ∃ q, Scan c5wp = .ok () q ∧ q.Token = ⟨4, .SEMICOLON, [';']⟩ ∧ q.CompleteSemicolon = false :=
  scan_synthesis_spec.1 c5wp ⟨4, .String, ['s']⟩ [] rfl rfl rfl

/-- One `Scan` over a single identifier-shaped basic token `foo`. -/
def c6run : PRes Unit := Scan (NewParser [⟨0, .Ident, "foo".toList⟩])

/-- Lookahead kind of a completed `Scan`. -/
def scanKind : PRes Unit → Option TokenKind
  | .ok _ p => some p.Token.Kind
  | _ => none

/-- C6 counterexample: the identifier-shaped lexeme `foo` is absent from
the keyword table, yet `Scan` yields the generic operator kind, not the
identifier kind the claim requires for identifier-shaped input. -/
theorem ident_fallback_example :
    scanKind c6run = some .Operator ∧ TokenKind.Operator ≠ TokenKind.Ident :=
  ⟨rfl, by decide⟩

/-- C6 (amended): for every identifier-, operator- or delimiter-shaped
basic token, `Scan` resolves the literal through the keyword table: a
spelling present in the table yields the table's keyword kind, and a
spelling absent from it yields the generic operator kind regardless of
which basic shape produced it. -/
theorem scan_keyword_fallback (p : Parser) (bt : BasicToken) (rest : List BasicToken)
    (hbuf : p.Scanner.buf = bt :: rest)
    (hns : ¬(p.Token.Kind = .NEWLINE ∧ p.CompleteSemicolon = true))
    (hsh : bt.Kind = .Ident ∨ bt.Kind = .Operator ∨ bt.Kind = .Delimiter) :
    ∃ q, Scan p = .ok () q ∧ q.Token.Kind = resolveKw bt.Literal
      ∧ (KeywordLookup.find? (fun kv => kv.1 == bt.Literal) = none → q.Token.Kind = .Operator)
      ∧ (∀ kv, KeywordLookup.find? (fun kv => kv.1 == bt.Literal) = some kv → q.Token.Kind = kv.2) := by
  refine ⟨scanResolveStep bt ⟨rest, bt.Pos + bt.Literal.length⟩ { p with CompleteSemicolon := false }, ?_, scanResolveStep_kind bt _ _, ?_, ?_⟩
  · unfold Scan
    rw [hbuf]
    simp only [scanGo]
    rw [if_neg hns]
    rcases hsh with h | h | h <;> simp only [h]
  · intro hnone
    rw [scanResolveStep_kind, resolveKw, hnone]
  · intro kv hsome
    rw [scanResolveStep_kind, resolveKw, hsome]

/-- Stream for the `scan_keyword_fallback` witness: the keyword `func` as
an identifier-shaped basic token. -/
def c6wp : Parser := NewParser [⟨0, .Ident, "func".toList⟩]

/-- Witness for the amended C6 theorem: the keyword spelling `func` is in
the table and comes out with the keyword kind. -/
theorem scan_keyword_fallback_witness :
    ∃ q, Scan c6wp = .ok () q ∧ q.Token.Kind = resolveKw ("func".toList)
      ∧ (KeywordLookup.find? (fun kv => kv.1 == ("func".toList)) = none → q.Token.Kind = .Operator)
      ∧ (∀ kv, KeywordLookup.find? (fun kv => kv.1 == ("func".toList)) = some kv → q.Token.Kind = kv.2) :=
  scan_keyword_fallback c6wp ⟨0, .Ident, "func".toList⟩ [] rfl (by decide) (Or.inl rfl)

/-- C10: on a `Scan` call that synthesizes a terminator (previous lookahead
was the line-break kind with the flag set), the freshly pulled basic token
is consumed from the stream and discarded: the new state's stream is
exactly the old stream's tail, the lookahead is the synthesized terminator
rather than the pulled token, and no other state component buffers it. -/
theorem synthesis_discards_pulled_token (p : Parser) (bt : BasicToken) (rest : List BasicToken)
    (hbuf : p.Scanner.buf = bt :: rest) (hk : p.Token.Kind = .NEWLINE) (hf : p.CompleteSemicolon = true) :
    Scan p = .ok () { p with Scanner := ⟨rest, bt.Pos + bt.Literal.length⟩, CompleteSemicolon := false, Token := ⟨bt.Pos, .SEMICOLON, [';']⟩ } := by
  unfold Scan
  rw [hbuf]
  simp only [scanGo]
  rw [if_pos ⟨hk, hf⟩]

/-- State for the C10 witness: line break at position 8, then an integer
literal at position 9 and an identifier shape at position 11. -/
def c10wp : Parser :=
  ⟨⟨[⟨9, .Int 10, ['7']⟩, ⟨11, .Ident, ['z']⟩], 0⟩, false, ⟨8, .NEWLINE, ['\n']⟩, true, [], []⟩

/-- Witness for C10 at a concrete state: the integer token is dropped, the
identifier-shaped token stays buffered in the stream. -/
theorem synthesis_discards_pulled_token_witness :
    Scan c10wp = .ok () { c10wp with Scanner := ⟨[⟨11, .Ident, ['z']⟩], 9 + 1⟩, CompleteSemicolon := false, Token := ⟨9, .SEMICOLON, [';']⟩ } :=
  synthesis_discards_pulled_token c10wp ⟨9, .Int 10, ['7']⟩ [⟨11, .Ident, ['z']⟩] rfl rfl rfl

/-- C7: `ReportAndRecover(error)` appends the error to the diagnostics log;
when the bracket tracker is empty nothing else happens, and when it is
non-empty the recovery loop runs: each iteration pops exactly one expected
closer from the tracker, compares it with the current lookahead by kind tag
only (the payload of `Int` kinds is ignored), stops on a match with that
entry consumed, and on a mismatch discards one token by advancing the
adapter before the next comparison. -/
theorem reportAndRecover_spec :
    (∀ (n : Nat) (e : SyntaxError) (p : Parser), p.QuoteStack = [] →
       ReportAndRecover n e p = .ok () { p with SyntaxErrors := p.SyntaxErrors ++ [e] })
    ∧ (∀ (n : Nat) (e : SyntaxError) (p : Parser), p.QuoteStack ≠ [] →
       ReportAndRecover n e p = recoverLoop n { p with SyntaxErrors := p.SyntaxErrors ++ [e] })
    ∧ (∀ (m : Nat) (p : Parser) (c : TokenKind) (rest : List TokenKind),
       p.QuoteStack = c :: rest → tagMatches p.Token.Kind c = true →
       recoverLoop (m + 1) p = .ok () { p with QuoteStack := rest })
    ∧ (∀ (m : Nat) (p q : Parser) (c : TokenKind) (rest : List TokenKind),
       p.QuoteStack = c :: rest → tagMatches p.Token.Kind c = false →
       Scan { p with QuoteStack := rest } = .ok () q →
       recoverLoop (m + 1) p = recoverLoop m q)
    ∧ (∀ f1 f2 : Nat, tagMatches (.Int f1) (.Int f2) = true) := by
  refine ⟨?_, ?_, ?_, ?_, fun f1 f2 => rfl⟩
  · intro n e p h
    simp [ReportAndRecover, h]
  · intro n e p h
    cases hq : p.QuoteStack with
    | nil => exact absurd hq h
    | cons c cs => simp [ReportAndRecover, hq]
  · intro m p c rest h1 h2
    simp [recoverLoop, h1, h2]
  · intro m p q c rest h1 h2 h3
    simp [recoverLoop, h1, h2, h3]

/-- Error value for the `reportAndRecover_spec` witness. -/
def c7err : SyntaxError := .UnexpectedNode ⟨.TokenKind .RPAREN, .TokenKind .COMMA⟩

/-- State for the `reportAndRecover_spec` witness: tracker `[RPAREN]` and
lookahead `RPAREN`, so the loop stops on the first comparison. -/
def c7wp : Parser := ⟨⟨[], 0⟩, false, ⟨0, .RPAREN, [')']⟩, false, [.RPAREN], []⟩

/-- Witness for C7 at a concrete state: the error is appended and the only
tracker entry is consumed against the matching lookahead. -/
theorem reportAndRecover_spec_witness :
    ReportAndRecover 1 c7err c7wp = .ok () ⟨⟨[], 0⟩, false, ⟨0, .RPAREN, [')']⟩, false, [], [c7err]⟩ :=
  (reportAndRecover_spec.2.1 1 c7err c7wp (by decide)).trans
    (reportAndRecover_spec.2.2.1 0 { c7wp with SyntaxErrors := c7wp.SyntaxErrors ++ [c7err] } .RPAREN [] rfl rfl)

/-- Error value for the C8 theorem. -/
def c8err : SyntaxError := .UnexpectedNode ⟨.TokenKind .None, .TokenKind .None⟩

/-- State for the C8 theorem: tracker `[RPAREN]`, lookahead a comma, and
the stream delivers another comma, so no popped closer ever matches. -/
def c8p : Parser := ⟨⟨[⟨1, .Delimiter, [',']⟩], 0⟩, false, ⟨0, .COMMA, [',']⟩, false, [.RPAREN], []⟩

/-- C8: a concrete input on which `ReportAndRecover` aborts instead of
returning: recovery starts with the non-empty tracker `[RPAREN]`, the first
comparison fails and consumes the only entry, and the second comparison
pops the now-empty tracker — the `unwrap` of `None` on line 161. -/
theorem recover_pops_empty_crash :
    c8p.QuoteStack ≠ [] ∧ ReportAndRecover 10 c8err c8p = .crash :=
  ⟨by decide, rfl⟩

/-- Core of C9: whenever `parse_list!` returns normally, the lookahead of
the returned state tag-matches the terminator parameter. -/
theorem parse_list_term_aux :
    ∀ (n : Nat) {α : Type} (f : Parser → PRes α) (d t : TokenKind) (p : Parser) (l : List α) (q : Parser),
      parse_list f n d t p = .ok l q → tagMatches q.Token.Kind t = true := by
  intro n
  induction n with
  | zero => intro α f d t p l q h; simp [parse_list] at h
  | succ m ih =>
    intro α f d t p l q h
    simp only [parse_list] at h
    cases hf : f p with
    | scanErr => rw [hf] at h; simp [pbind] at h
    | crash => rw [hf] at h; simp [pbind] at h
    | fuelOut => rw [hf] at h; simp [pbind] at h
    | ok a p1 =>
      rw [hf] at h
      simp only [pbind] at h
      split at h
      case isTrue hd =>
        cases hs : Scan p1 with
        | scanErr => rw [hs] at h; simp [pbind] at h
        | crash => rw [hs] at h; simp [pbind] at h
        | fuelOut => rw [hs] at h; simp [pbind] at h
        | ok u p2 =>
          rw [hs] at h
          simp only [pbind] at h
          split at h
          case isTrue ht => cases h; exact ht
          case isFalse ht =>
            cases hr : parse_list f m d t p2 with
            | ok l2 q2 => rw [hr] at h; cases h; exact ih f d t p2 l2 _ hr
            | scanErr => rw [hr] at h; simp at h
            | crash => rw [hr] at h; simp at h
            | fuelOut => rw [hr] at h; simp at h
      case isFalse hd =>
        split at h
        case isTrue ht => cases h; exact ht
        case isFalse ht =>
          cases hr : parse_list f m d t p1 with
          | ok l2 q2 => rw [hr] at h; cases h; exact ih f d t p1 l2 _ hr
          | scanErr => rw [hr] at h; simp at h
          | crash => rw [hr] at h; simp at h
          | fuelOut => rw [hr] at h; simp at h

/-- C9: when the list-parsing utility — and hence `ExpectFieldList` —
returns normally, the terminator token is not consumed: the current
lookahead of the returned state still tag-matches the terminator parameter,
in both the trailing-delimiter exit and the direct-terminator exit. -/
theorem parse_list_keeps_terminator :
    (∀ (α : Type) (f : Parser → PRes α) (n : Nat) (d t : TokenKind) (p : Parser) (l : List α) (q : Parser),
        parse_list f n d t p = .ok l q → tagMatches q.Token.Kind t = true)
    ∧ (∀ (et : Parser → PRes Ty) (n : Nat) (d t : TokenKind) (p : Parser) (fl : FieldList) (q : Parser),
        ExpectFieldList et n d t p = .ok fl q → tagMatches q.Token.Kind t = true) := by
  constructor
  · intro α f n d t p l q h
    exact parse_list_term_aux n f d t p l q h
  · intro et n d t p fl q h
    simp only [ExpectFieldList] at h
    cases hr : parse_list (ExpectField et n) n d t p with
    | ok l2 q2 =>
      rw [hr] at h
      simp only [pbind] at h
      cases h
      exact parse_list_term_aux n _ d t p l2 _ hr
    | scanErr => rw [hr] at h; simp [pbind] at h
    | crash => rw [hr] at h; simp [pbind] at h
    | fuelOut => rw [hr] at h; simp [pbind] at h

/-- State for the `parse_list_keeps_terminator` witness: the lookahead is
already the terminator. -/
def c9wp : Parser := ⟨⟨[], 0⟩, false, ⟨0, .SEMICOLON, [';']⟩, false, [], []⟩

/-- Witness for C9: a concrete `parse_list` run that returns normally does
so with the lookahead tag-matching the terminator. -/
theorem parse_list_keeps_terminator_witness :
    tagMatches TokenKind.SEMICOLON TokenKind.SEMICOLON = true :=
  parse_list_keeps_terminator.1 Nat (fun p => .ok 0 p) 1 .COMMA .SEMICOLON c9wp [0] c9wp rfl

end CEE
